import Mathlib

/-!
Shallow embedding of the RF-test dashboard `src/LABDEMO.py`.

The program is a single-process Dash app built from module-level mutable
globals (the pattern table `angles`/`signals`, the sweep cursor `idx`, the
accumulated trace `x_data`/`y_data`, the last-signal value `pattern_power`,
and the serial flags `ser`/`simulation`) together with three Dash stores
(`scan-state`, `frequency-state`, `spectrum-axis`).

Python floats are modelled by `ℚ` (all constants of the program are exact
decimals), Python list subscription by a checked lookup returning
`Except String` mirroring `IndexError`, and the table parsed by pandas by a
`List (ℚ × ℚ)` of rows (a two-column data frame always has columns of equal
length).  The Gaussian of the synthetic spectrum uses `Real.exp`, so the
spectrum value lives in `ℝ` while its exponent argument stays in `ℚ`.

A crucial point of the Dash semantics modelled here: a callback argument
declared as `State("scan-state", "data")` is a read-only snapshot; mutating
the received dict inside the callback body does NOT write the store.  Only a
callback that lists the store as an `Output` updates it.  The `pattern`
callback outputs only the figure and the LCD text, so its assignments
`state["active"] = False` change a callback-local copy that is discarded.
The embedding therefore returns that local flag as a separate component,
and the system-level `step` function discards it, exactly as Dash does.
-/

/-- Constant `SPAN_HZ = 50e6`, the fixed spectrum span in Hz. -/
def SPAN_HZ : ℚ := 50000000

/-- Constant `PTS = 1001`, the fixed number of sample points of the spectrum. -/
def PTS : ℕ := 1001

/-- Constant `SIG_W = 500e3`, the fixed Gaussian width of the signal bump in Hz. -/
def SIG_W : ℚ := 500000

/-- Constant `DEFAULT_CF_HZ = 5.9e9`, the initial centre frequency in Hz. -/
def DEFAULT_CF_HZ : ℚ := 5900000000

/-- Python list subscription `xs[i]` for a non-negative index: the element
when `i` is in range, and an `IndexError` otherwise. -/
def pyIndex (xs : List ℚ) (i : ℕ) : Except String ℚ :=
  if h : i < xs.length then .ok (xs.get ⟨i, h⟩) else .error ("IndexError")

/-- The module-level mutable globals of `LABDEMO.py` that the sweep logic
touches: the pattern table (`angles`, `signals`, the two columns of `df`),
the last-signal value `pattern_power`, the cursor `idx` and the accumulated
trace `x_data`, `y_data`. -/
structure G where
  angles : List ℚ
  signals : List ℚ
  pattern_power : ℚ
  idx : ℕ
  x_data : List ℚ
  y_data : List ℚ
deriving Repr, DecidableEq

/-- The `pattern` callback (LABDEMO.py lines 432-448) acting on the globals.
`resetTriggered` tells whether the firing input was `reset-btn` (otherwise it
was the interval tick), `active0` is the snapshot of the `"active"` field of `scan-state` passed in as a Dash `State`.  Returns the new globals
together with the value of the callback-local `state["active"]` at the end
of the body (which Dash then discards, since `scan-state` is not an output
of this callback); an `IndexError` escaping the body is an `.error`. -/
def pattern (g0 : G) (resetTriggered active0 : Bool) : Except String (G × Bool) :=
  let g := if resetTriggered then { g0 with idx := 0, x_data := [], y_data := [] } else g0
  let active := if resetTriggered then false else active0
  let condE : Except String Bool :=
    if active && decide (g.idx < g.angles.length) then
      match pyIndex g.angles g.idx with
      | .error e => .error e
      | .ok a => .ok (decide (a ≤ 360))
    else .ok false
  match condE with
  | .error e => .error e
  | .ok true =>
    match pyIndex g.angles g.idx with
    | .error e => .error e
    | .ok a =>
      match pyIndex g.signals g.idx with
      | .error e => .error e
      | .ok s =>
        .ok ({ g with x_data := g.x_data ++ [a],
                      y_data := g.y_data ++ [s],
                      pattern_power := s,
                      idx := g.idx + 1 }, active)
  | .ok false =>
    let haltE : Except String Bool :=
      if decide (g.angles.length ≤ g.idx) then .ok true
      else
        match pyIndex g.angles g.idx with
        | .error e => .error e
        | .ok a => .ok (decide (a > 360))
    match haltE with
    | .error e => .error e
    | .ok true => .ok (g, false)
    | .ok false => .ok (g, active)

/-- The `toggle_scan` callback: when a button triggered it, the stored
`"active"` becomes whether the trigger was `start-btn`; with no trigger the
state is returned unchanged. -/
def toggle_scan (triggeredStart : Option Bool) (state : Bool) : Bool :=
  match triggeredStart with
  | none => state
  | some isStart => isStart

/-- The two frequency buttons of the VSG panel. -/
inductive FreqBtn where
  | up
  | down
deriving Repr, DecidableEq

/-- The `update_frequency` callback: increment or decrement by `0.01` GHz,
then clamp to `[5.8, 6.0]` via `max(5.8, min(6.0, frequency))`.  The
returned value is what the callback writes back to `frequency-state`. -/
def update_frequency (freq : ℚ) (b : FreqBtn) : ℚ :=
  let f := match b with
    | .up => freq + 1/100
    | .down => freq - 1/100
  max (29/5) (min 6 f)

/-- The `update_csv` callback after the upload bytes have been handed to the
external decode/parse collaborators (`base64`, `pandas`): `parsed` is the
outcome of `pd.read_csv` on the decoded contents, a list of two-column rows.
On a parse exception the handler only returns the error status.  On success
it replaces `df`/`angles`/`signals` and then sets `pattern_power` to
`signals[0]` — for an empty table that last subscription raises, which the
same `except` catches, after the table has already been replaced. -/
def update_csv (g : G) (filename : String) (parsed : Except String (List (ℚ × ℚ))) :
    G × String :=
  match parsed with
  | .error e => (g, "Error processing file: " ++ e)
  | .ok rows =>
    let g1 := { g with angles := rows.map Prod.fst, signals := rows.map Prod.snd }
    match rows with
    | [] => (g1, "Error processing file: list index out of range")
    | r :: _ => ({ g1 with pattern_power := r.2 },
                 "File " ++ filename ++ " uploaded successfully.")

/-- The whole observable state of the app: the globals plus the three Dash
stores (`scan-state`, `frequency-state` in GHz, `spectrum-axis` in Hz). -/
structure Sys where
  g : G
  scanActive : Bool
  frequency : ℚ
  centerHz : ℚ
deriving Repr, DecidableEq

/-- The user/timer events that mutate state. `upload` carries the parse
outcome delivered by the external CSV collaborator. -/
inductive Ev where
  | tick
  | resetBtn
  | startBtn
  | stopBtn
  | upload (filename : String) (parsed : Except String (List (ℚ × ℚ)))
  | freqUp
  | freqDown
  | autoBtn

/-- One dispatch of the Dash event queue.  Note that for `tick` and
`resetBtn` the second component returned by `pattern` (the callback-local
scan dict) is discarded and `scanActive` is left unchanged: `scan-state` is
only an `Output` of `toggle_scan`. -/
def step (s : Sys) : Ev → Except String Sys
  | .tick =>
    match pattern s.g false s.scanActive with
    | .error e => .error e
    | .ok (g2, _) => .ok { s with g := g2 }
  | .resetBtn =>
    match pattern s.g true s.scanActive with
    | .error e => .error e
    | .ok (g2, _) => .ok { s with g := g2 }
  | .startBtn => .ok { s with scanActive := toggle_scan (some true) s.scanActive }
  | .stopBtn => .ok { s with scanActive := toggle_scan (some false) s.scanActive }
  | .upload fn parsed => .ok { s with g := (update_csv s.g fn parsed).1 }
  | .freqUp => .ok { s with frequency := update_frequency s.frequency .up }
  | .freqDown => .ok { s with frequency := update_frequency s.frequency .down }
  | .autoBtn => .ok { s with centerHz := s.frequency * 1000000000 }

/-- Run a sequence of events, propagating an uncaught exception. -/
def runE : Sys → List Ev → Except String Sys
  | s, [] => .ok s
  | s, e :: es =>
    match step s e with
    | .error err => .error err
    | .ok s2 => runE s2 es

/-- The globals right after module load, from the rows of the startup CSV:
`angles` and `signals` are the two columns, `pattern_power = signals[0]`
(the program requires a non-empty CSV to start), cursor `0`, empty trace. -/
def initG (rows : List (ℚ × ℚ)) : G :=
  { angles := rows.map Prod.fst
    signals := rows.map Prod.snd
    pattern_power := (rows.map Prod.snd).headD 0
    idx := 0
    x_data := []
    y_data := [] }

/-- The app state right after layout construction: sweep not running,
`frequency-state = 5.9` GHz, `spectrum-axis = DEFAULT_CF_HZ`. -/
def initSys (rows : List (ℚ × ℚ)) : Sys :=
  { g := initG rows
    scanActive := false
    frequency := 59/10
    centerHz := DEFAULT_CF_HZ }

/-- The serial globals: `ser` is `none` when the variable holds `None`, and
`some b` when it holds a port object with `is_open = b`; `simulation` is the
no-COM flag. -/
structure SerialSt where
  ser : Option Bool
  simulation : Bool
deriving Repr, DecidableEq

/-- The dropdown entry that selects simulation mode. -/
def SIM_PORT : String := "SIMULATE (no-COM)"

/-- Function `open_port`: picking the simulation entry closes any open port and sets
`simulation = True`; otherwise `simulation` is set to `False` FIRST, the old
port is closed, and only then `serial.Serial(...)` is attempted
(`raiseOnOpen` tells whether that constructor raises).  The boolean returned
alongside the state says whether a `SerialException` escaped; the global
mutations made before the raise persist. -/
def open_port (s : SerialSt) (port : String) (raiseOnOpen : Bool) : SerialSt × Bool :=
  if port = SIM_PORT then
    ({ ser := none, simulation := true }, false)
  else
    let closedOld : SerialSt := { ser := s.ser.map (fun _ => false), simulation := false }
    if raiseOnOpen then (closedOld, true)
    else ({ closedOld with ser := some true }, false)

/-- Function `connect_serial`: call `open_port` and report a status string; a
`SerialException` is caught and shown as `Error {e}` (`excMsg` stands for
the exception text). -/
def connect_serial (s : SerialSt) (port : String) (raiseOnOpen : Bool) (excMsg : String) :
    SerialSt × String :=
  let r := open_port s port raiseOnOpen
  if r.2 then (r.1, "Error " ++ excMsg)
  else (r.1, if r.1.simulation then "Simulation" else "Connected " ++ port)

/-- Whether `safe_write` actually writes to the port: only when not in
simulation and `ser` is an open port object. -/
def safe_write (s : SerialSt) : Bool :=
  !s.simulation && s.ser == some true

/-- Sample `i` of `np.linspace(center - SPAN_HZ/2, center + SPAN_HZ/2, PTS)`:
the left endpoint plus `i` steps of `SPAN_HZ / (PTS - 1)`. -/
def freqs_hz (center : ℚ) (i : ℕ) : ℚ :=
  (center - SPAN_HZ / 2) + (i : ℚ) * (SPAN_HZ / ((PTS : ℚ) - 1))

/-- The clipped noise floor of `update_spectrum`:
`np.clip(-90 + gauss, -inf, -80)` at index `i`, where `raw i` is the random
draw `np.random.normal(0, 5.5)` at that index. -/
def noise (raw : ℕ → ℚ) (i : ℕ) : ℚ :=
  min (-90 + raw i) (-80)

/-- The exponent of the signal bump of `update_spectrum`:
`-((f - CF_HZ + 150e3) ** 2) / (2 * SIG_W ** 2)`. -/
def sigExpArg (cf f : ℚ) : ℚ :=
  -((f - cf + 150000) ^ 2) / (2 * SIG_W ^ 2)

/-- The signal bump of `update_spectrum`:
`-100 + amp * exp(...)` with `amp = pattern_power + 100` (`pp` is
`pattern_power`, `cf` is `CF_HZ = frequency * 1e9`). -/
noncomputable def sig (pp cf f : ℚ) : ℝ :=
  -100 + ((pp : ℝ) + 100) * Real.exp ((sigExpArg cf f : ℚ) : ℝ)

/-- The sampled power curve of `update_spectrum`:
`y = np.maximum(noise, sig)` at index `i`, for window centre `center`
(`spectrum-axis`), VSG centre `cf` and last-signal `pp`. -/
noncomputable def update_spectrum (raw : ℕ → ℚ) (pp cf center : ℚ) (i : ℕ) : ℝ :=
  max ((noise raw i : ℚ) : ℝ) (sig pp cf (freqs_hz center i))

/-- Modelled from the words of the spec only, for comparison with `sig` (claim
C3): a Gaussian signal bump of width `SIG_W` centered EXACTLY at the VSG
frequency `cf`, same base and amplitude as the bump of the code. -/
noncomputable def specSig (pp cf f : ℚ) : ℝ :=
  -100 + ((pp : ℝ) + 100) * Real.exp (((-((f - cf) ^ 2) / (2 * SIG_W ^ 2) : ℚ)) : ℝ)

/-- The implicit bookkeeping invariant of the sweep: the cursor equals the
length of both accumulated trace lists. -/
def traceInv (g : G) : Prop :=
  g.idx = g.x_data.length ∧ g.idx = g.y_data.length

lemma pyIndex_ok {xs : List ℚ} {i : ℕ} (h : i < xs.length) :
    pyIndex xs i = .ok xs[i] := dif_pos h

lemma pyIndex_err {xs : List ℚ} {i : ℕ} (h : xs.length ≤ i) :
    pyIndex xs i = .error ("IndexError") := dif_neg (Nat.not_lt.mpr h)

lemma pattern_reset (g : G) (a : Bool) :
    pattern g true a = pattern { g with idx := 0, x_data := [], y_data := [] } false false := rfl

lemma pattern_inactive (g : G) : pattern g false false = .ok (g, false) := by
  by_cases hlt : g.idx < g.angles.length
  · simp [pattern, pyIndex_ok hlt, Nat.not_le.mpr hlt]
    split <;> simp_all
  · simp [pattern, Nat.not_lt.mp hlt, Nat.le_of_not_lt hlt]

lemma pattern_notlt (g : G) (h : g.angles.length ≤ g.idx) (a : Bool) :
    pattern g false a = .ok (g, false) := by
  simp [pattern, Nat.not_lt.mpr h, h]

lemma pattern_emit (g : G) (h1 : g.idx < g.angles.length) (h1s : g.idx < g.signals.length)
    (h2 : g.angles[g.idx] ≤ 360) :
    pattern g false true =
      .ok ({ g with x_data := g.x_data ++ [g.angles[g.idx]],
                    y_data := g.y_data ++ [g.signals[g.idx]],
                    pattern_power := g.signals[g.idx],
                    idx := g.idx + 1 }, true) := by
  simp [pattern, pyIndex_ok h1, pyIndex_ok h1s, h1, h2]

lemma pattern_emit_err (g : G) (h1 : g.idx < g.angles.length)
    (h2 : g.angles[g.idx] ≤ 360) (h3 : g.signals.length ≤ g.idx) :
    pattern g false true = .error ("IndexError") := by
  simp [pattern, pyIndex_ok h1, pyIndex_err h3, h1, h2]

lemma pattern_big (g : G) (h1 : g.idx < g.angles.length)
    (h2 : ¬ g.angles[g.idx] ≤ 360) :
    pattern g false true = .ok (g, false) := by
  simp [pattern, pyIndex_ok h1, h1, h2, not_le.mp h2]

lemma pattern_false_preserves (g g2 : G) (a b : Bool)
    (h : pattern g false a = .ok (g2, b)) (hg : traceInv g) : traceInv g2 := by
  cases a with
  | false =>
    rw [pattern_inactive] at h
    simp only [Except.ok.injEq, Prod.mk.injEq] at h
    obtain ⟨h, -⟩ := h
    subst h
    exact hg
  | true =>
    by_cases hlt : g.idx < g.angles.length
    · by_cases h2 : g.angles[g.idx] ≤ 360
      · by_cases h1s : g.idx < g.signals.length
        · rw [pattern_emit g hlt h1s h2] at h
          simp only [Except.ok.injEq, Prod.mk.injEq] at h
          obtain ⟨h, -⟩ := h
          subst h
          exact ⟨by simp [hg.1], by simp [hg.2]⟩
        · rw [pattern_emit_err g hlt h2 (Nat.le_of_not_lt h1s)] at h
          cases h
      · rw [pattern_big g hlt h2] at h
        simp only [Except.ok.injEq, Prod.mk.injEq] at h
        obtain ⟨h, -⟩ := h
        subst h
        exact hg
    · rw [pattern_notlt g (Nat.le_of_not_lt hlt) true] at h
      simp only [Except.ok.injEq, Prod.mk.injEq] at h
      obtain ⟨h, -⟩ := h
      subst h
      exact hg

lemma pattern_preserves_inv (g g2 : G) (r a b : Bool)
    (h : pattern g r a = .ok (g2, b)) (hg : traceInv g) : traceInv g2 := by
  cases r with
  | false => exact pattern_false_preserves g g2 a b h hg
  | true =>
    rw [pattern_reset] at h
    exact pattern_false_preserves _ g2 false b h ⟨rfl, rfl⟩

lemma update_csv_sweep_fields (g : G) (fn : String) (p : Except String (List (ℚ × ℚ))) :
    (update_csv g fn p).1.idx = g.idx ∧ (update_csv g fn p).1.x_data = g.x_data ∧
      (update_csv g fn p).1.y_data = g.y_data := by
  rcases p with e | rows
  · exact ⟨rfl, rfl, rfl⟩
  · cases rows with
    | nil => exact ⟨rfl, rfl, rfl⟩
    | cons r rest => exact ⟨rfl, rfl, rfl⟩

lemma step_preserves_inv (s s2 : Sys) (e : Ev)
    (h : step s e = .ok s2) (hg : traceInv s.g) : traceInv s2.g := by
  cases e with
  | tick =>
    simp only [step] at h
    cases hp : pattern s.g false s.scanActive with
    | error err => rw [hp] at h; cases h
    | ok r =>
      obtain ⟨g2, b⟩ := r
      rw [hp] at h
      simp only [Except.ok.injEq] at h
      subst h
      exact pattern_preserves_inv s.g g2 false s.scanActive b hp hg
  | resetBtn =>
    simp only [step] at h
    cases hp : pattern s.g true s.scanActive with
    | error err => rw [hp] at h; cases h
    | ok r =>
      obtain ⟨g2, b⟩ := r
      rw [hp] at h
      simp only [Except.ok.injEq] at h
      subst h
      exact pattern_preserves_inv s.g g2 true s.scanActive b hp hg
  | startBtn =>
    simp only [step, Except.ok.injEq] at h
    subst h
    exact hg
  | stopBtn =>
    simp only [step, Except.ok.injEq] at h
    subst h
    exact hg
  | upload fn p =>
    simp only [step, Except.ok.injEq] at h
    subst h
    obtain ⟨hi, hx, hy⟩ := update_csv_sweep_fields s.g fn p
    exact ⟨by rw [show ({ s with g := (update_csv s.g fn p).1 } : Sys).g = (update_csv s.g fn p).1 from rfl, hi, hx]; exact hg.1,
           by rw [show ({ s with g := (update_csv s.g fn p).1 } : Sys).g = (update_csv s.g fn p).1 from rfl, hi, hy]; exact hg.2⟩
  | freqUp =>
    simp only [step, Except.ok.injEq] at h
    subst h
    exact hg
  | freqDown =>
    simp only [step, Except.ok.injEq] at h
    subst h
    exact hg
  | autoBtn =>
    simp only [step, Except.ok.injEq] at h
    subst h
    exact hg

lemma runE_preserves_inv (evs : List Ev) (s s2 : Sys)
    (h : runE s evs = .ok s2) (hg : traceInv s.g) : traceInv s2.g := by
  induction evs generalizing s with
  | nil =>
    simp only [runE, Except.ok.injEq] at h
    subst h
    exact hg
  | cons e es ih =>
    simp only [runE] at h
    cases hs : step s e with
    | error err => rw [hs] at h; cases h
    | ok s1 =>
      rw [hs] at h
      exact ih s1 h (step_preserves_inv s s1 e hs hg)

/-- C1: on a timer tick (reset not triggered), if the running flag is set,
the cursor is within the angle table (and the signal table, which pandas
guarantees has the same length), and the angle at the cursor is at most 360,
then the `pattern` callback appends the (angle, signal) pair at the cursor
to the accumulated trace, advances the cursor by exactly one, and sets
`pattern_power` to the signal at that cursor position. -/
theorem C1_tick_emits (g : G) (h1 : g.idx < g.angles.length)
    (h1s : g.idx < g.signals.length) (h2 : g.angles[g.idx] ≤ 360) :
    pattern g false true =
      .ok ({ g with x_data := g.x_data ++ [g.angles[g.idx]],
                    y_data := g.y_data ++ [g.signals[g.idx]],
                    pattern_power := g.signals[g.idx],
                    idx := g.idx + 1 }, true) :=
  pattern_emit g h1 h1s h2

/-- Witness for C1 on the one-row table (10°, −50 dBm) at cursor 0. -/
theorem C1_tick_emits_witness :
    (0 < ([(10:ℚ)]).length ∧ 0 < ([(-50:ℚ)]).length ∧ ([(10:ℚ)])[0] ≤ 360) ∧
    pattern ⟨[10], [-50], -50, 0, [], []⟩ false true =
      .ok (⟨[10], [-50], -50, 1, [10], [-50]⟩, true) :=
  ⟨⟨by decide, by decide, by norm_num⟩,
   C1_tick_emits ⟨[10], [-50], -50, 0, [], []⟩ (by decide) (by decide) (by norm_num)⟩

/-- C2 (code bug): after starting the sweep and exhausting a one-row table,
the `"active"` flag held in the `scan-state` store is still `true` — the
`pattern` callback only mutates its callback-local copy of the store dict
(`scan-state` is a Dash `State` of that callback, not an `Output`), so the
auto-stop the spec describes never reaches the store. -/
theorem C2_store_active_persists :
    (runE (initSys [((0:ℚ), (-50:ℚ))]) [Ev.startBtn, Ev.tick, Ev.tick]).map Sys.scanActive
      = .ok true := rfl

/-- C5 (code bug): pressing Reset while running zeroes the cursor and clears
the trace, but the `scan-state` store keeps `"active" = true` (the callback
mutates only its local copy), so the very next tick starts emitting again:
after Start, Tick, Reset, Tick the store is still running, the cursor is 1
and the trace holds one point again, where the claim demands a stopped
sweep after Reset. -/
theorem C5_reset_leaves_store_running :
    (runE (initSys [((0:ℚ), (-50:ℚ))]) [Ev.startBtn, Ev.tick, Ev.resetBtn, Ev.tick]).map
        (fun s => (s.scanActive, s.g.idx, s.g.x_data)) = .ok (true, 1, [0]) := rfl

/-- C6: starting from the initial 5.9 GHz, any sequence of frequency
increment/decrement commands leaves the value written back to the
`frequency-state` store inside [5.8, 6.0] GHz. -/
theorem C6_frequency_clamped (cmds : List FreqBtn) :
    29/5 ≤ cmds.foldl update_frequency (59/10) ∧ cmds.foldl update_frequency (59/10) ≤ 6 := by
  have key : ∀ (l : List FreqBtn) (f : ℚ), 29/5 ≤ f → f ≤ 6 →
      29/5 ≤ l.foldl update_frequency f ∧ l.foldl update_frequency f ≤ 6 := by
    intro l
    induction l with
    | nil => intro f hf1 hf2; exact ⟨hf1, hf2⟩
    | cons c cs ih =>
      intro f _ _
      simp only [List.foldl_cons]
      exact ih (update_frequency f c) (le_max_left _ _)
        (max_le (by norm_num) (min_le_left _ _))
  exact key cmds (59/10) (by norm_num) (by norm_num)

/-- C7: when parsing the uploaded file raises, `update_csv` returns the
exception text as the status and leaves the globals (table and
`pattern_power`) exactly as they were. -/
theorem C7_parse_error_state_unchanged (g : G) (filename e : String) :
    update_csv g filename (.error e) = (g, "Error processing file: " ++ e) := rfl

/-- C8: on a table whose two columns have equal length (as pandas
guarantees), the `pattern` callback never raises for any cursor value, and
with an out-of-range cursor on a tick it indexes nothing: it returns the
globals unchanged with the local running flag cleared, halting the sweep. -/
theorem C8_no_index_error (g : G) (reset active : Bool)
    (hlen : g.signals.length = g.angles.length) :
    (∃ r, pattern g reset active = .ok r) ∧
      (reset = false → g.angles.length ≤ g.idx →
        pattern g reset active = .ok (g, false)) := by
  constructor
  · cases reset with
    | false =>
      cases active with
      | false => exact ⟨(g, false), pattern_inactive g⟩
      | true =>
        by_cases hlt : g.idx < g.angles.length
        · by_cases h2 : g.angles[g.idx] ≤ 360
          · have h1s : g.idx < g.signals.length := by rw [hlen]; exact hlt
            exact ⟨_, pattern_emit g hlt h1s h2⟩
          · exact ⟨(g, false), pattern_big g hlt h2⟩
        · exact ⟨(g, false), pattern_notlt g (Nat.le_of_not_lt hlt) true⟩
    | true =>
      rw [pattern_reset]
      exact ⟨_, pattern_inactive _⟩
  · intro hr h
    subst hr
    exact pattern_notlt g h active

/-- Witness for C8: an out-of-range cursor (5, on a one-row table) halts the
tick without touching the table. -/
theorem C8_no_index_error_witness :
    (([(-50:ℚ)]).length = ([(10:ℚ)]).length) ∧
    ((∃ r, pattern ⟨[10], [-50], -50, 5, [], []⟩ false true = .ok r) ∧
      (false = false → ([(10:ℚ)]).length ≤ 5 →
        pattern ⟨[10], [-50], -50, 5, [], []⟩ false true =
          .ok (⟨[10], [-50], -50, 5, [], []⟩, false))) :=
  ⟨by decide, C8_no_index_error ⟨[10], [-50], -50, 5, [], []⟩ false true (by decide)⟩

/-- C10: every reachable state of the app satisfies the bookkeeping
invariant that the cursor equals the length of both accumulated trace
lists; in particular every operation that touches the sweep state (tick,
reset, CSV upload) preserves it from the initial state. -/
theorem C10_cursor_equals_trace_length (rows : List (ℚ × ℚ)) (evs : List Ev) (s : Sys)
    (h : runE (initSys rows) evs = .ok s) :
    s.g.idx = s.g.x_data.length ∧ s.g.idx = s.g.y_data.length :=
  runE_preserves_inv evs (initSys rows) s h ⟨rfl, rfl⟩

/-- Witness for C10: after Start and one Tick on the one-row table the
cursor is 1 and each trace list has length 1. -/
theorem C10_cursor_equals_trace_length_witness :
    (runE (initSys [((10:ℚ), (-50:ℚ))]) [Ev.startBtn, Ev.tick] =
      .ok ⟨⟨[10], [-50], -50, 1, [10], [-50]⟩, true, 59/10, DEFAULT_CF_HZ⟩) ∧
    ((1:ℕ) = ([(10:ℚ)]).length ∧ (1:ℕ) = ([(-50:ℚ)]).length) := by
  have h : runE (initSys [((10:ℚ), (-50:ℚ))]) [Ev.startBtn, Ev.tick] =
      .ok ⟨⟨[10], [-50], -50, 1, [10], [-50]⟩, true, 59/10, DEFAULT_CF_HZ⟩ := rfl
  exact ⟨h, C10_cursor_equals_trace_length [((10:ℚ), (-50:ℚ))] [Ev.startBtn, Ev.tick] _ h⟩

/-- C3 counterexample: the signal bump of the code is NOT the Gaussian centered
exactly at the VSG frequency: at the sample that falls exactly on the VSG
frequency (index 500 of a window centered there) the curve built by the code
differs from the curve the claim describes (built from `specSig`). -/
theorem C3_counterexample_bump_off_center :
    update_spectrum (fun _ => 0) 0 DEFAULT_CF_HZ DEFAULT_CF_HZ 500 ≠
      max (((noise (fun _ => 0) 500 : ℚ)) : ℝ)
        (specSig 0 DEFAULT_CF_HZ (freqs_hz DEFAULT_CF_HZ 500)) := by
  have hfreq : freqs_hz DEFAULT_CF_HZ 500 = DEFAULT_CF_HZ := by
    norm_num [freqs_hz, SPAN_HZ, PTS, DEFAULT_CF_HZ]
  have harg : sigExpArg DEFAULT_CF_HZ DEFAULT_CF_HZ = -(9/200) := by
    norm_num [sigExpArg, SIG_W, DEFAULT_CF_HZ]
  have hnoise : noise (fun _ => 0) 500 = -90 := by norm_num [noise]
  have hspec : specSig 0 DEFAULT_CF_HZ DEFAULT_CF_HZ = 0 := by
    unfold specSig
    norm_num [Real.exp_zero]
  have hcast : (((-(9/200) : ℚ)) : ℝ) = -(9/200 : ℝ) := by push_cast; ring
  have hE1 : Real.exp (-(9/200 : ℝ)) < 1 := Real.exp_lt_one_iff.mpr (by norm_num)
  have hE2 : (191/200 : ℝ) ≤ Real.exp (-(9/200 : ℝ)) := by
    have := Real.add_one_le_exp (-(9/200 : ℝ))
    linarith
  unfold update_spectrum sig
  rw [hfreq, harg, hnoise, hspec, hcast]
  have hL : max (((-90 : ℚ)) : ℝ) (-100 + (((0:ℚ):ℝ) + 100) * Real.exp (-(9/200 : ℝ)))
      = -100 + (((0:ℚ):ℝ) + 100) * Real.exp (-(9/200 : ℝ)) := by
    apply max_eq_right
    push_cast
    nlinarith
  have hR : max (((-90 : ℚ)) : ℝ) (0 : ℝ) = 0 := by
    apply max_eq_right
    push_cast
    norm_num
  rw [hL, hR]
  apply ne_of_lt
  push_cast
  nlinarith

/-- C3 amended: on every tick the curve is the pointwise maximum of the
clipped noise floor and a Gaussian signal bump of fixed width `SIG_W` and
amplitude `pattern_power + 100` over a −100 dBm base, centered at
`CF_HZ − 150 kHz` — 150 kHz below the current VSG frequency, not exactly at
it. -/
theorem C3_curve_is_max_with_offset_gaussian (raw : ℕ → ℚ) (pp cf center : ℚ) (i : ℕ) :
    update_spectrum raw pp cf center i =
      max ((noise raw i : ℚ) : ℝ)
        (-100 + ((pp : ℝ) + 100) *
          Real.exp (((-((freqs_hz center i - (cf - 150000)) ^ 2) / (2 * SIG_W ^ 2) : ℚ)) : ℝ)) := by
  have h : sigExpArg cf (freqs_hz center i) =
      -((freqs_hz center i - (cf - 150000)) ^ 2) / (2 * SIG_W ^ 2) := by
    unfold sigExpArg
    ring
  unfold update_spectrum sig
  rw [h]

/-- C4 counterexample: starting from the fresh state (no port, simulation
on), a failed physical connect leaves `simulation = False` — not `True` as
the claim states — because `open_port` clears the flag before
`serial.Serial` raises. -/
theorem C4_counterexample_sim_flag_false :
    ¬ ((connect_serial ⟨none, true⟩ ("COM3") true ("could not open port")).1.simulation = true) := by
  decide

/-- C4 amended: when opening a physical serial port raises, the status shows
the exception message, the `simulation` flag is left `false` (the fallback to
simulation of the claim holds only behaviourally), and subsequent
commands still perform no serial writes because no open port remains. -/
theorem C4_failed_connect (s : SerialSt) (port excMsg : String) (h : port ≠ SIM_PORT) :
    (connect_serial s port true excMsg).2 = "Error " ++ excMsg ∧
    (connect_serial s port true excMsg).1.simulation = false ∧
    safe_write (connect_serial s port true excMsg).1 = false := by
  unfold connect_serial open_port
  simp only [h, if_false, if_true, reduceIte]
  cases s.ser <;> simp [safe_write]

/-- Witness for C4 with no previously open port and port name "COM3". -/
theorem C4_failed_connect_witness :
    (("COM3" : String) ≠ SIM_PORT) ∧
    ((connect_serial ⟨none, true⟩ ("COM3") true ("no device")).2 = ("Error " ++ "no device") ∧
     (connect_serial ⟨none, true⟩ ("COM3") true ("no device")).1.simulation = false ∧
     safe_write (connect_serial ⟨none, true⟩ ("COM3") true ("no device")).1 = false) :=
  ⟨by decide, C4_failed_connect ⟨none, true⟩ ("COM3") ("no device") (by decide)⟩

/-- C9: when the window is centered on the VSG frequency, the middle sample
(index 500, which falls exactly on the VSG frequency) is strictly above the
clipped noise floor and within `(9/200)·(pattern_power + 100)` dB below the
last-signal value `pattern_power`, provided the last signal is at least
−79 dBm so that the bump clears the −80 dBm noise ceiling. -/
theorem C9_center_sample_near_peak (raw : ℕ → ℚ) (pp cf : ℚ) (hpp : -79 ≤ pp) :
    ((noise raw 500 : ℚ) : ℝ) < update_spectrum raw pp cf cf 500 ∧
    (-80 : ℝ) < update_spectrum raw pp cf cf 500 ∧
    (pp : ℝ) - (9/200) * ((pp : ℝ) + 100) ≤ update_spectrum raw pp cf cf 500 ∧
    update_spectrum raw pp cf cf 500 ≤ (pp : ℝ) := by
  have hfreq : freqs_hz cf 500 = cf := by
    unfold freqs_hz SPAN_HZ PTS
    push_cast
    ring
  have harg : sigExpArg cf cf = -(9/200) := by
    norm_num [sigExpArg, SIG_W]
  have hcast : (((-(9/200) : ℚ)) : ℝ) = -(9/200 : ℝ) := by push_cast; ring
  have hE1 : Real.exp (-(9/200 : ℝ)) < 1 := Real.exp_lt_one_iff.mpr (by norm_num)
  have hE2 : (191/200 : ℝ) ≤ Real.exp (-(9/200 : ℝ)) := by
    have := Real.add_one_le_exp (-(9/200 : ℝ))
    linarith
  have hppR : (-79 : ℝ) ≤ (pp : ℝ) := by exact_mod_cast hpp
  have hnz : ((noise raw 500 : ℚ) : ℝ) ≤ -80 := by
    have h0 : noise raw 500 ≤ -80 := min_le_right _ _
    calc ((noise raw 500 : ℚ) : ℝ) ≤ ((-80 : ℚ) : ℝ) := by exact_mod_cast h0
    _ = -80 := by push_cast; ring
  have hsig : (-80 : ℝ) < -100 + ((pp : ℝ) + 100) * Real.exp (-(9/200 : ℝ)) := by
    nlinarith [mul_nonneg (by linarith : (0:ℝ) ≤ (pp:ℝ) + 100 - 21)
      (by linarith : (0:ℝ) ≤ Real.exp (-(9/200 : ℝ)) - 191/200)]
  have hy : update_spectrum raw pp cf cf 500 =
      -100 + ((pp : ℝ) + 100) * Real.exp (-(9/200 : ℝ)) := by
    unfold update_spectrum sig
    rw [hfreq, harg, hcast]
    exact max_eq_right (by linarith)
  have hXnn : (0:ℝ) ≤ (pp : ℝ) + 100 := by linarith
  refine ⟨?_, ?_, ?_, ?_⟩
  · rw [hy]; linarith
  · rw [hy]; exact hsig
  · rw [hy]; linarith [mul_le_mul_of_nonneg_left hE2 hXnn]
  · rw [hy]; linarith [mul_le_mul_of_nonneg_left (le_of_lt hE1) hXnn]

/-- Witness for C9 at `pattern_power = −30` dBm with zero random draws. -/
theorem C9_center_sample_near_peak_witness :
    ((-79 : ℚ) ≤ -30) ∧
    (((noise (fun _ => 0) 500 : ℚ) : ℝ) <
        update_spectrum (fun _ => 0) (-30) DEFAULT_CF_HZ DEFAULT_CF_HZ 500 ∧
      (-80 : ℝ) < update_spectrum (fun _ => 0) (-30) DEFAULT_CF_HZ DEFAULT_CF_HZ 500 ∧
      ((-30 : ℚ) : ℝ) - (9/200) * (((-30 : ℚ) : ℝ) + 100) ≤
        update_spectrum (fun _ => 0) (-30) DEFAULT_CF_HZ DEFAULT_CF_HZ 500 ∧
      update_spectrum (fun _ => 0) (-30) DEFAULT_CF_HZ DEFAULT_CF_HZ 500 ≤ ((-30 : ℚ) : ℝ)) :=
  ⟨by norm_num, C9_center_sample_near_peak (fun _ => 0) (-30) DEFAULT_CF_HZ (by norm_num)⟩
